import Mathlib

/-
Verification development for rssfs, a 9p file server exposing RSS feeds as a
read-only file hierarchy (source: src/rssfs.go).  The definitions below are a
shallow embedding of the node model, the tree builder, and the per-connection
request dispatcher.  Byte strings are modelled as lists of natural numbers;
Go strings are modelled as Lean strings, with their byte content abstracted
as the list of character code points (the claims below do not depend on
UTF-8 encoding details).  Parts implemented by the external neinp library
(the fid map, the generic fs.Dir and fs.File entries) and the Go standard
library (bytes.Reader) are modelled from the specification text and the
documented library semantics, and are marked as such.
-/

/-- Models strings.HasPrefix from the Go standard library: s begins with p. -/
def hasPfx (s p : String) : Bool := p.data.isPrefixOf s.data

/-- Byte content of a Go string, abstracted as character code points. -/
def strBytes (s : String) : List Nat := s.data.map Char.toNat

/-- One step of the 64-bit FNV-1a hash: xor the byte in, multiply by the
FNV prime, modulo 2 to the 64 (the uint64 wraparound in hash/fnv). -/
def fnvStep (h b : Nat) : Nat := ((h ^^^ b) * 1099511628211) % (2 ^ 64)

/-- The 64-bit FNV-1a hash of a byte sequence (hash/fnv, New64a). -/
def fnv64 (bs : List Nat) : Nat := bs.foldl fnvStep 14695981039346656037

/-- hashPath from src/rssfs.go lines 201-205: FNV-1a 64 of the string. -/
def hashPath (s : String) : Nat := fnv64 (strBytes s)

/-- Helper for pathExt: scans the reversed character list; acc holds the
characters already passed, in source order. -/
def pathExtRev : List Char → List Char → List Char
  | [], _ => []
  | c :: rest, acc =>
    if c = '/' then []
    else if c = '.' then c :: acc
    else pathExtRev rest (c :: acc)

/-- Models path.Ext from the Go standard library: the suffix beginning at the
final dot in the final slash-separated element, or empty. -/
def pathExt (s : String) : String := String.mk (pathExtRev s.data.reverse [])

/-- Models path.Base from the Go standard library: the last element of the
path, after stripping trailing slashes; "." for the empty path, "/" if the
path is all slashes. -/
def pathBase (s : String) : String :=
  if s.data = [] then "."
  else
    match (s.data.reverse.dropWhile (fun c => c = '/')).reverse with
    | [] => "/"
    | trimmed => String.mk (trimmed.reverse.takeWhile (fun c => ¬ (c = '/'))).reverse

/-- Conversion of a Go int64 value to uint64, as in uint64(res.ContentLength)
at src/rssfs.go line 444: reduction modulo 2 to the 64. -/
def u64 (i : Int) : Nat := (i % (2 ^ 64 : Int)).toNat

/-- Conversion of a Go uint64 value to int64, as in int64(m.Offset) at
src/rssfs.go line 527: values at or above 2 to the 63 become negative. -/
def toInt64 (n : Nat) : Int :=
  if n % 2 ^ 64 < 2 ^ 63 then ((n % 2 ^ 64 : Nat) : Int)
  else ((n % 2 ^ 64 : Nat) : Int) - 2 ^ 64

/-- Qid type bit for directories (neinp qid.TypeDir, the 9p QTDIR bit). -/
def qtDir : Nat := 0x80

/-- Qid type bit for plain files (neinp qid.TypeFile). -/
def qtFile : Nat := 0x00

/-- Mode of a directory: 0555 together with the directory bit (stat.Dir). -/
def dirMode : Nat := (2 ^ 31) ||| 0o555

/-- Identity triple of a node: fields are typ, version, path
(neinp qid.Qid). -/
structure Qid where
  typ : Nat
  version : Nat
  path : Nat
deriving DecidableEq

/-- Metadata of a node (neinp stat.Stat): fields are qid, mode, atime,
mtime, length, name, uid, gid, muid.  Timestamps are abstracted as natural
numbers. -/
structure Stat where
  qid : Qid
  mode : Nat
  atime : Nat
  mtime : Nat
  length : Nat
  name : String
  uid : String
  gid : String
  muid : String
deriving DecidableEq

/-- A node of the tree: a directory with ordered children, a static file
with an in-memory byte buffer, or a media file with a remote locator
(rootDir, feedDir, itemDir, staticFile, mediaFile in src/rssfs.go). -/
inductive Entry where
  | dir (s : Stat) (children : List Entry)
  | static (s : Stat) (content : List Nat)
  | media (s : Stat) (url : String)

/-- Metadata snapshot of a node. -/
def Entry.stat : Entry → Stat
  | .dir s _ => s
  | .static s _ => s
  | .media s _ => s

/-- Display name of a node, the path component exposed to clients. -/
def Entry.name (e : Entry) : String := e.stat.name

/-- Identity of a node. -/
def Entry.qid (e : Entry) : Qid := e.stat.qid

/-- Children of a node; file variants have none. -/
def Entry.children : Entry → List Entry
  | .dir _ cs => cs
  | _ => []

/-- Whether a node is a media file. -/
def Entry.isMedia : Entry → Bool
  | .media _ _ => true
  | _ => false

/-- Static byte content of a node, when it is a static file. -/
def Entry.fileContent : Entry → Option (List Nat)
  | .static _ d => some d
  | _ => none

/-- newStaticFile from src/rssfs.go lines 374-393: a read-only file with a
fixed byte buffer; qid path is the hash of the name alone, length is the
buffer size. -/
def newStaticFile (name : String) (version : Nat) (times : Nat)
    (data : List Nat) (uid gid : String) : Entry :=
  Entry.static
    ⟨⟨qtFile, version, hashPath name⟩, 0o555, times, times, data.length,
      name, uid, gid, uid⟩
    data

/-- newMediaFile from src/rssfs.go lines 401-422: a media file node with a
remote url; the advertised length starts at 0 and the buffer is absent.
The Go function returns a nil error unconditionally. -/
def newMediaFile (name : String) (version : Nat) (times : Nat)
    (url : String) (uid gid : String) : Entry :=
  Entry.media
    ⟨⟨qtFile, version, hashPath name⟩, 0o555, times, times, 0,
      name, uid, gid, uid⟩
    url

/-- mediaUrl from src/rssfs.go lines 305-308: the MIME type looked up from
the file extension of the url starts with audio or video.  The MIME table
mime.TypeByExtension is platform state, so it is a parameter mimeOf. -/
def mediaUrl (mimeOf : String → String) (url : String) : Bool :=
  hasPfx (mimeOf (pathExt url)) "audio" || hasPfx (mimeOf (pathExt url)) "video"

/-- One parsed feed item as consumed by newItemDir (gofeed.Item): fields are
title, description, content, link, guid, and the enclosure urls in order
(the code only reads the URL field of an enclosure). -/
structure Item where
  title : String
  description : String
  content : String
  link : String
  guid : String
  enclosures : List String
deriving DecidableEq

/-- newItemDir from src/rssfs.go lines 310-368: a directory named by the
item title whose children are the five fixed field files followed by media
children: one from the guid when it qualifies as a media url, otherwise one
per qualifying enclosure in order.  The several time.Now() calls are
collapsed into the single parameter now; the qid version is
uint32(time.Now().Unix()), modelled as now modulo 2 to the 32. -/
def newItemDir (mimeOf : String → String) (now : Nat) (item : Item)
    (uid gid : String) : Entry :=
  Entry.dir
    ⟨⟨qtDir, now % 2 ^ 32, hashPath item.link⟩, dirMode, now, now, 0,
      item.title, uid, gid, uid⟩
    ([newStaticFile "title" (now % 2 ^ 32) now (strBytes item.title) uid gid,
      newStaticFile "description" (now % 2 ^ 32) now (strBytes item.description) uid gid,
      newStaticFile "content" (now % 2 ^ 32) now (strBytes item.content) uid gid,
      newStaticFile "link" (now % 2 ^ 32) now (strBytes item.link) uid gid,
      newStaticFile "guid" (now % 2 ^ 32) now (strBytes item.guid) uid gid]
     ++ (if mediaUrl mimeOf item.guid then
          [newMediaFile (pathBase item.guid) (now % 2 ^ 32) now item.guid uid gid]
        else
          (item.enclosures.filter (fun u => mediaUrl mimeOf u)).map
            (fun u => newMediaFile (pathBase u) (now % 2 ^ 32) now u uid gid)))

/-- newFeedDir from src/rssfs.go lines 265-299, with the network fetch and
parse factored out: the directory named by the feed title, qid path the
hash of the feed url, version 0, children the item directories in feed
order. -/
def newFeedDir (mimeOf : String → String) (now : Nat) (url title : String)
    (items : List Item) (uid gid : String) : Entry :=
  Entry.dir
    ⟨⟨qtDir, 0, hashPath url⟩, dirMode, now, now, 0, title, uid, gid, uid⟩
    (items.map (fun i => newItemDir mimeOf now i uid gid))

/-- newRootDir from src/rssfs.go lines 231-259, with the per-url feed
construction factored out: the root directory, qid path the hash of the
slash, version 0, children the feed directories. -/
def newRootDir (feeds : List Entry) (now : Nat) (uid gid : String) : Entry :=
  Entry.dir
    ⟨⟨qtDir, 0, hashPath "/"⟩, dirMode, now, now, 0, "/", uid, gid, uid⟩
    feeds

/-- Classified failures of the dispatcher, standing for the error strings of
the Go code: notFound for message.NotFoundErrorString, noStat for
message.NoStatErrorString, unknownFid for message.UnknownFidErrorString,
botch for message.BotchErrorString (the protocol mismatch and open failure
reply), notADirectory for a walk on a file node, negativePosition for the
bytes.Reader seek failure, fetchFail for a failed media download. -/
inductive Err where
  | notFound
  | noStat
  | unknownFid
  | botch
  | notADirectory
  | negativePosition
  | fetchFail
deriving DecidableEq

/-- Modelled from the spec: the per-connection fid map of the neinp library
(fid.Map), a mapping from client-chosen integer handles to bound nodes. -/
def Fids : Type := Nat → Option Entry

/-- Modelled from the spec: Bind overwrites any prior binding for the
handle (fid.Map.Set). -/
def setFid (f : Fids) (n : Nat) (e : Entry) : Fids :=
  fun m => if m = n then some e else f m

/-- Modelled from the spec: one child-lookup step of a walk.  A directory
resolves the first child whose display name matches and fails with
notFound otherwise; a file variant is terminal and fails with
notADirectory (neinp fs.Dir.Walk and fs.File.Walk, described in the spec
sections on WalkChild). -/
def entryWalk (e : Entry) (name : String) : Except Err Entry :=
  match e with
  | .dir _ children =>
    match children.find? (fun c => decide (c.name = name)) with
    | some c => .ok c
    | none => .error .notFound
  | _ => .error .notADirectory

/-- Resolution of a component sequence from a node, one entryWalk per
component, returning the final node. -/
def walkPath (e : Entry) (names : List String) : Except Err Entry :=
  match names with
  | [] => .ok e
  | n :: rest =>
    match entryWalk e n with
    | .ok e2 => walkPath e2 rest
    | .error err => .error err

/-- The loop of RSSFs.Walk at src/rssfs.go lines 487-498: resolve the
components one at a time, collecting the qid of each resolved component in
order; the first failure aborts with that error. -/
def walkLoop (e : Entry) (names : List String) : Except Err (Entry × List Qid) :=
  match names with
  | [] => .ok (e, [])
  | n :: rest =>
    match entryWalk e n with
    | .error err => .error err
    | .ok e2 =>
      match walkLoop e2 rest with
      | .error err => .error err
      | .ok (ef, qs) => .ok (ef, e2.qid :: qs)

/-- RSSFs.Walk from src/rssfs.go lines 479-505.  The result is the reply
error (none on success), the Wqid list of the reply, and the fid map after
the operation.  An unbound source fid fails with notFound; a component
failure returns the error together with an empty RWalk and leaves the fid
map unchanged; on success the destination fid is bound to the final node
when the component count equals the collected qid count. -/
def rssWalk (fids : Fids) (fid newfid : Nat) (wname : List String) :
    Option Err × List Qid × Fids :=
  match fids fid with
  | none => (some .notFound, [], fids)
  | some e =>
    match walkLoop e wname with
    | .error err => (some err, [], fids)
    | .ok (ef, qs) =>
      (none, qs, if wname.length = qs.length then setFid fids newfid ef else fids)

/-- RSSFs.Version from src/rssfs.go lines 459-465: a proposed version
without the 9P2000 prefix is answered with the botch error; otherwise the
reply carries the fixed string 9P2000 and the proposed msize.  The fid map
is part of the state to record that negotiation never touches it. -/
def rssVersion (fids : Fids) (version : String) (msize : Nat) :
    Except Err (String × Nat) × Fids :=
  if hasPfx version "9P2000" = false then (.error .botch, fids)
  else (.ok ("9P2000", msize), fids)

/-- Error mapping of RSSFs.Open at src/rssfs.go lines 513-518: a failing
node open is reported to the caller as the botch error, a successful one
returns the qid recorded before the open. -/
def openReply (q : Qid) (r : Except Err Unit) : Except Err Qid :=
  match r with
  | .error _ => .error .botch
  | .ok _ => .ok q

/-- State of the ReadSeeker of an opened file: the materialized content and
the current seek position (bytes.Reader from the Go standard library). -/
structure ByteReader where
  content : List Nat
  pos : Nat
deriving DecidableEq

/-- Seek to an absolute offset (bytes.Reader.Seek with whence SeekStart):
fails on a negative position, otherwise sets the position, beyond the end
included. -/
def readerSeekStart (r : ByteReader) (off : Int) : Except Err ByteReader :=
  if off < 0 then .error .negativePosition
  else .ok ⟨r.content, off.toNat⟩

/-- Read up to count bytes from the current position (bytes.Reader.Read):
at or beyond the end this returns no bytes and the EOF condition, which
the dispatcher ignores. -/
def readerRead (r : ByteReader) (count : Nat) : List Nat × ByteReader :=
  ((r.content.drop r.pos).take count,
   ⟨r.content, r.pos + ((r.content.drop r.pos).take count).length⟩)

/-- RSSFs.Read from src/rssfs.go lines 521-539, after the fid lookup has
produced a bound opened file: convert the wire offset from uint64 to
int64, seek to it absolutely, then read up to count bytes; EOF from the
reader is not an error.  A failing seek returns the error and leaves the
reader unchanged. -/
def rssRead (r : ByteReader) (offset count : Nat) :
    Except Err (List Nat) × ByteReader :=
  match readerSeekStart r (toInt64 offset) with
  | .error e => (.error e, r)
  | .ok r2 => (.ok (readerRead r2 count).1, (readerRead r2 count).2)

/-- Mutable state of a media file node: the advertised length in its stat
and the lazily fetched buffer (fields stat.Length and ReadSeeker of
mediaFile in src/rssfs.go). -/
structure MediaState where
  length : Nat
  content : Option (List Nat)
deriving DecidableEq

/-- State of a media file as built by newMediaFile: advertised length 0,
no buffer. -/
def newMediaState : MediaState := ⟨0, none⟩

/-- Outcome of the remote fetch attempted by mediaFile.Open: the HTTP
request itself fails; or the request succeeds advertising contentLength
but reading the body fails; or the request succeeds and the body is
read completely. -/
inductive FetchOutcome where
  | getFail
  | readFail (contentLength : Int)
  | success (contentLength : Int) (body : List Nat)
deriving DecidableEq

/-- mediaFile.Open from src/rssfs.go lines 428-457.  When the buffer is
already present the call is a no-op; otherwise the fetch runs with the
given outcome: a failed request returns the error with the state
unchanged; a successful request first sets the advertised length to
uint64(res.ContentLength), then a failed body read returns the error with
the buffer still absent, and a full body read stores the buffer.  The
third component records whether the remote fetch was attempted. -/
def mediaOpen (m : MediaState) (o : FetchOutcome) :
    Except Err Unit × MediaState × Bool :=
  match m.content with
  | some _ => (.ok (), m, false)
  | none =>
    match o with
    | .getFail => (.error .fetchFail, m, true)
    | .readFail cl => (.error .fetchFail, ⟨u64 cl, none⟩, true)
    | .success cl body => (.ok (), ⟨u64 cl, some body⟩, true)

/-- Position of one connection inside mediaFile.Open: before the nil check
of the buffer, past the check and about to fetch, or finished. -/
inductive TPos where
  | start
  | fetching
  | done
deriving DecidableEq

/-- Joint state of two connections concurrently inside mediaFile.Open on
one shared media node: the shared node state, the number of remote
fetches performed so far, and the position of each connection. -/
structure CState where
  media : MediaState
  fetchCount : Nat
  pc0 : TPos
  pc1 : TPos
deriving DecidableEq

/-- One atomic step of a connection inside mediaFile.Open: at start it
evaluates the nil check on the shared buffer, skipping the fetch when the
buffer is present; at fetching it performs the whole fetch and stores the
buffer.  The source has no lock around the check, so steps of the two
connections interleave freely. -/
def threadStep (m : MediaState) (count : Nat) (p : TPos) (cl : Int)
    (body : List Nat) : MediaState × Nat × TPos :=
  match p with
  | .start =>
    match m.content with
    | some _ => (m, count, .done)
    | none => (m, count, .fetching)
  | .fetching => (⟨u64 cl, some body⟩, count + 1, .done)
  | .done => (m, count, .done)

/-- One scheduler step: run the chosen connection (false for the first,
true for the second) for one atomic step. -/
def schedStep (s : CState) (tid : Bool) (cl : Int) (body : List Nat) : CState :=
  if tid = false then
    match threadStep s.media s.fetchCount s.pc0 cl body with
    | (m, c, p) => ⟨m, c, p, s.pc1⟩
  else
    match threadStep s.media s.fetchCount s.pc1 cl body with
    | (m, c, p) => ⟨m, c, s.pc0, p⟩

/-- Run a schedule of interleaved steps of the two connections. -/
def schedRun (s : CState) (sched : List Bool) (cl : Int) (body : List Nat) : CState :=
  sched.foldl (fun st tid => schedStep st tid cl body) s

/-- Whether a dispatcher result is a success. -/
def exceptIsOk {α : Type} : Except Err α → Bool
  | .ok _ => true
  | .error _ => false

/-- Concrete static file used as demonstration input: a file named a with
two bytes of content. -/
def demoChild : Entry := newStaticFile "a" 0 0 [104, 105] "nobody" "nogroup"

/-- Concrete directory used as demonstration input, holding demoChild. -/
def demoDir : Entry :=
  Entry.dir ⟨⟨qtDir, 0, hashPath "/"⟩, dirMode, 0, 0, 0, "/", "nobody", "nogroup", "nobody"⟩
    [demoChild]

/-- Concrete fid map binding handle 0 to demoDir and nothing else. -/
def demoFids : Fids := fun n => if n = 0 then some demoDir else none

/-- Concrete MIME lookup table mapping the mp3 extension to an audio type. -/
def demoMime : String → String := fun e => if e = ".mp3" then "audio/mpeg" else ""

/-- Helper: the qid list collected by the walk loop is discarded when a
component fails; the loop result is exactly the error of the failing
component whenever a prefix resolves and the next component fails. -/
theorem walkLoopAppendFail (bad : String) (rest : List String) (efail : Entry)
    (err : Err) (hbad : entryWalk efail bad = .error err) :
    ∀ (pre : List String) (e : Entry), walkPath e pre = .ok efail →
      walkLoop e (pre ++ bad :: rest) = .error err := by
  intro pre
  induction pre with
  | nil =>
    intro e he
    have heq : e = efail := by
      simpa [walkPath] using he
    subst heq
    simp [walkLoop, hbad]
  | cons n ns ih =>
    intro e he
    cases hw : entryWalk e n with
    | error er =>
      rw [walkPath, hw] at he
      exact absurd he (by simp)
    | ok e2 =>
      rw [walkPath, hw] at he
      have hrec := ih e2 he
      simp [walkLoop, hw, hrec]

/-- C1 (amended).  Walk atomicity: for a bound source handle and a component
sequence whose prefix pre resolves but whose next component bad fails, the
Walk operation fails with that error, the whole fid map (in particular the
destination binding) is unchanged, and the reply carries an empty identity
list: the identities of the components that did resolve are discarded, not
returned. -/
theorem walkFailureAtomic (fids : Fids) (fid newfid : Nat) (e efail : Entry)
    (pre : List String) (bad : String) (rest : List String) (err : Err)
    (hb : fids fid = some e)
    (hpre : walkPath e pre = .ok efail)
    (hbad : entryWalk efail bad = .error err) :
    rssWalk fids fid newfid (pre ++ bad :: rest) = (some err, [], fids) := by
  have hl := walkLoopAppendFail bad rest efail err hbad pre e hpre
  simp [rssWalk, hb, hl]

/-- C1 counterexample.  Walking the two components a then b from handle 0,
the first component resolves (to a file) and the second fails, so the claim
requires the reply to list exactly one identity; the code returns an empty
RWalk together with the error, so the list has zero entries. -/
theorem walkFailureCounterexample :
    entryWalk demoDir "a" = Except.ok demoChild
    ∧ entryWalk demoChild "b" = Except.error Err.notADirectory
    ∧ rssWalk demoFids 0 1 ["a", "b"] = (some Err.notADirectory, [], demoFids)
    ∧ (rssWalk demoFids 0 1 ["a", "b"]).2.1.length = 0 :=
  ⟨rfl, rfl, rfl, rfl⟩

/-- C1 witness: the amended theorem applied to the concrete two-component
walk whose second component fails. -/
theorem walkFailureAtomicWitness :
    rssWalk demoFids 0 1 (["a"] ++ "b" :: []) = (some Err.notADirectory, [], demoFids) :=
  walkFailureAtomic demoFids 0 1 demoDir demoChild ["a"] "b" [] Err.notADirectory rfl rfl rfl

/-- C2.  Walk clone semantics: from a bound handle, a Walk with an empty
component sequence succeeds with an empty identity list, binds the
destination handle to the very node the source is bound to, and leaves
every other handle binding unchanged. -/
theorem walkEmptyClone (fids : Fids) (fid newfid : Nat) (e : Entry)
    (hb : fids fid = some e) :
    rssWalk fids fid newfid [] = (none, [], setFid fids newfid e)
    ∧ setFid fids newfid e newfid = some e
    ∧ ∀ h : Nat, ¬ (h = newfid) → setFid fids newfid e h = fids h := by
  refine ⟨?_, ?_, ?_⟩
  · simp [rssWalk, hb, walkLoop]
  · simp [setFid]
  · intro h hne
    simp [setFid, hne]

/-- C2 witness: the clone theorem applied to the concrete bound handle 0
and destination 5. -/
theorem walkEmptyCloneWitness :
    rssWalk demoFids 0 5 [] = (none, [], setFid demoFids 5 demoDir)
    ∧ setFid demoFids 5 demoDir 5 = some demoDir :=
  ⟨(walkEmptyClone demoFids 0 5 demoDir rfl).1,
   (walkEmptyClone demoFids 0 5 demoDir rfl).2.1⟩

/-- C3 counterexample.  An Open of a fresh media file whose HTTP request
succeeds advertising content length 5 but whose body read fails returns an
error, yet the advertised length is now 5, not 0: a failed Open can change
the reported length. -/
theorem mediaLengthCounterexample :
    newMediaState.length = 0
    ∧ (mediaOpen newMediaState (FetchOutcome.readFail 5)).1 = Except.error Err.fetchFail
    ∧ ((mediaOpen newMediaState (FetchOutcome.readFail 5)).2.1).length = 5
    ∧ ((mediaOpen newMediaState (FetchOutcome.readFail 5)).2.1).content = none :=
  ⟨rfl, rfl, by decide, rfl⟩

/-- C3 (amended).  The advertised length of a media file is 0 from
construction; an Open failing at the HTTP request itself leaves the whole
state (length included) unchanged; but an Open whose request succeeds sets
the length to the advertised content length even when reading the body
then fails, so only request-stage failures leave the length at 0. -/
theorem mediaLengthInvariant :
    newMediaState.length = 0
    ∧ (∀ m : MediaState, (mediaOpen m FetchOutcome.getFail).2.1 = m)
    ∧ (∀ (m : MediaState) (cl : Int), m.content = none →
        (mediaOpen m (FetchOutcome.readFail cl)).1 = Except.error Err.fetchFail
        ∧ (mediaOpen m (FetchOutcome.readFail cl)).2.1 = ⟨u64 cl, none⟩)
    ∧ (∀ (m : MediaState) (cl : Int) (body : List Nat), m.content = none →
        (mediaOpen m (FetchOutcome.success cl body)).2.1.length = u64 cl) := by
  refine ⟨rfl, ?_, ?_, ?_⟩
  · intro m
    cases m with
    | mk l c => cases c <;> rfl
  · intro m cl h
    cases m with
    | mk l c =>
      cases c with
      | none => exact ⟨rfl, rfl⟩
      | some b => simp at h
  · intro m cl body h
    cases m with
    | mk l c =>
      cases c with
      | none => rfl
      | some b => simp at h

/-- C3 witness: the amended theorem applied to a fresh media state and a
body-read failure advertising length 7. -/
theorem mediaLengthInvariantWitness :
    (mediaOpen ⟨0, none⟩ (FetchOutcome.readFail 7)).2.1 = ⟨u64 7, none⟩ :=
  (mediaLengthInvariant.2.2.1 ⟨0, none⟩ 7 rfl).2

/-- C4.  A failed media Open is retryable: after any Open that returns an
error, the buffer is still absent, any subsequent Open attempts the remote
fetch again, a subsequent Open whose fetch succeeds completes without
error, and the dispatcher surfaces the failure to the caller as an open
error reply. -/
theorem mediaRetryAfterFailure (m : MediaState) (o : FetchOutcome) (e : Err)
    (h : (mediaOpen m o).1 = Except.error e) :
    (mediaOpen m o).2.1.content = none
    ∧ (∀ o2 : FetchOutcome, (mediaOpen (mediaOpen m o).2.1 o2).2.2 = true)
    ∧ (∀ (cl : Int) (body : List Nat),
        (mediaOpen (mediaOpen m o).2.1 (FetchOutcome.success cl body)).1 = Except.ok ())
    ∧ (∀ q : Qid, openReply q (mediaOpen m o).1 = Except.error Err.botch) := by
  cases m with
  | mk l c =>
    cases c with
    | some b => simp [mediaOpen] at h
    | none =>
      cases o with
      | getFail =>
        exact ⟨rfl, fun o2 => by cases o2 <;> rfl, fun cl body => rfl, fun q => rfl⟩
      | readFail cl0 =>
        exact ⟨rfl, fun o2 => by cases o2 <;> rfl, fun cl body => rfl, fun q => rfl⟩
      | success cl0 body0 => simp [mediaOpen] at h

/-- C4 witness: the retry theorem applied to a fresh media state whose
first Open fails at the HTTP request and whose second Open succeeds. -/
theorem mediaRetryAfterFailureWitness :
    (mediaOpen (mediaOpen newMediaState FetchOutcome.getFail).2.1
      (FetchOutcome.success 3 [7])).1 = Except.ok () :=
  (mediaRetryAfterFailure newMediaState FetchOutcome.getFail Err.fetchFail rfl).2.2.1 3 [7]

/-- C5 counterexample.  A Read at offset 2 to the 63 on empty content: the
offset is at or beyond the content length, so the claim requires a
successful empty result, but the uint64 offset becomes a negative int64
seek position and the code returns a seek error. -/
theorem readBoundaryCounterexample :
    (rssRead ⟨[], 0⟩ (2 ^ 63) 1).1 = Except.error Err.negativePosition
    ∧ ([] : List Nat).length ≤ 2 ^ 63 :=
  ⟨rfl, by simp⟩

/-- C5 (amended).  Read boundary behaviour for offsets below 2 to the 63
(larger wire offsets wrap to negative seek positions and fail): a Read
returns exactly the bytes of the content from the offset, truncated to
count; in particular at an offset at or beyond the content length it
returns zero bytes without error, and when offset plus count reaches past
the end it returns exactly the remaining bytes from the offset. -/
theorem readBoundary (r : ByteReader) (offset count : Nat)
    (hoff : offset < 2 ^ 63) :
    (rssRead r offset count).1 = Except.ok ((r.content.drop offset).take count)
    ∧ (r.content.length ≤ offset → (rssRead r offset count).1 = Except.ok [])
    ∧ (r.content.length ≤ offset + count →
        (rssRead r offset count).1 = Except.ok (r.content.drop offset)) := by
  have h64 : offset % 2 ^ 64 = offset := Nat.mod_eq_of_lt (by omega)
  have hseek : toInt64 offset = ((offset : Nat) : Int) := by
    unfold toInt64
    rw [h64, if_pos hoff]
  have hneg : ¬ (((offset : Nat) : Int) < 0) := by omega
  have hrun : (rssRead r offset count).1
      = Except.ok ((r.content.drop offset).take count) := by
    simp [rssRead, readerSeekStart, hseek, hneg, readerRead]
  refine ⟨hrun, ?_, ?_⟩
  · intro h
    rw [hrun]
    simp [List.drop_eq_nil_of_le h]
  · intro h
    rw [hrun]
    have hlen : (r.content.drop offset).length ≤ count := by
      simp [List.length_drop]
      omega
    simp [List.take_of_length_le hlen]

/-- C5 witness: the boundary theorem applied to three bytes of content, a
Read at offset 2 asking for five bytes, which returns the single
remaining byte. -/
theorem readBoundaryWitness :
    (rssRead ⟨[3, 4, 5], 0⟩ 2 5).1 = Except.ok (([3, 4, 5] : List Nat).drop 2) :=
  (readBoundary ⟨[3, 4, 5], 0⟩ 2 5 (by norm_num)).2.2 (by norm_num)

/-- Helper: media file entries are kept as such by the media filter. -/
theorem filterMediaMap (v now : Nat) (uid gid : String) (l : List String) :
    (l.map (fun u => newMediaFile (pathBase u) v now u uid gid)).filter Entry.isMedia
      = l.map (fun u => newMediaFile (pathBase u) v now u uid gid) := by
  induction l with
  | nil => rfl
  | cons a as ih => simp [List.filter_cons, newMediaFile, Entry.isMedia, ih]

/-- Media file children of a node, in order. -/
def mediaEntries (e : Entry) : List Entry := e.children.filter Entry.isMedia

/-- C6.  Media detection priority: when the guid of an item qualifies as a
media url, the item directory gets exactly one media child, derived from
the guid, and the enclosures are not considered; when the guid does not
qualify, the media children are exactly one per qualifying enclosure, in
enclosure order. -/
theorem mediaDetectionPriority (mimeOf : String → String) (now : Nat)
    (item : Item) (uid gid : String) :
    (mediaUrl mimeOf item.guid = true →
      mediaEntries (newItemDir mimeOf now item uid gid)
        = [newMediaFile (pathBase item.guid) (now % 2 ^ 32) now item.guid uid gid])
    ∧ (mediaUrl mimeOf item.guid = false →
      mediaEntries (newItemDir mimeOf now item uid gid)
        = (item.enclosures.filter (fun u => mediaUrl mimeOf u)).map
            (fun u => newMediaFile (pathBase u) (now % 2 ^ 32) now u uid gid)) := by
  constructor
  · intro h
    simp [mediaEntries, newItemDir, Entry.children, h, List.filter_append,
      List.filter_cons, newStaticFile, newMediaFile, Entry.isMedia]
  · intro h
    simp only [mediaEntries, newItemDir, Entry.children, h, Bool.false_eq_true,
      if_false, List.filter_append]
    rw [filterMediaMap]
    simp [List.filter_cons, newStaticFile, Entry.isMedia]

/-- Concrete item whose guid is a media url. -/
def demoItem : Item := ⟨"t", "d", "c", "l", "http://x/a.mp3", []⟩

/-- C6 witness: the priority theorem applied to an item whose guid ends in
mp3 under the demonstration MIME table. -/
theorem mediaDetectionPriorityWitness :
    mediaUrl demoMime demoItem.guid = true
    ∧ mediaEntries (newItemDir demoMime 0 demoItem "u" "g")
        = [newMediaFile (pathBase demoItem.guid) (0 % 2 ^ 32) 0 demoItem.guid "u" "g"] :=
  ⟨by decide, (mediaDetectionPriority demoMime 0 demoItem "u" "g").1 (by decide)⟩

/-- C7.  Path collision disambiguation: in a tree with one feed holding two
items with distinct titles, the two title files share the same qid path
component (the hash of the fixed field name alone), yet walking the full
component path from the root resolves each to the file holding its own
item title as content: traversal disambiguates by tree position, not by
identity value. -/
theorem pathCollisionDisambiguation (mimeOf : String → String) (now : Nat)
    (url ftitle uid gid : String) (i1 i2 : Item)
    (hne : ¬ (i1.title = i2.title)) :
    walkPath (newRootDir [newFeedDir mimeOf now url ftitle [i1, i2] uid gid] now uid gid)
        [ftitle, i1.title, "title"]
      = Except.ok (newStaticFile "title" (now % 2 ^ 32) now (strBytes i1.title) uid gid)
    ∧ walkPath (newRootDir [newFeedDir mimeOf now url ftitle [i1, i2] uid gid] now uid gid)
        [ftitle, i2.title, "title"]
      = Except.ok (newStaticFile "title" (now % 2 ^ 32) now (strBytes i2.title) uid gid)
    ∧ (newStaticFile "title" (now % 2 ^ 32) now (strBytes i1.title) uid gid).qid.path
      = (newStaticFile "title" (now % 2 ^ 32) now (strBytes i2.title) uid gid).qid.path := by
  refine ⟨?_, ?_, rfl⟩ <;>
    simp [walkPath, entryWalk, newRootDir, newFeedDir, newItemDir, newStaticFile,
      Entry.name, Entry.stat, Entry.children, List.find?, hne]

/-- Concrete first item for the collision witness. -/
def demoItem1 : Item := ⟨"one", "", "", "", "", []⟩

/-- Concrete second item for the collision witness. -/
def demoItem2 : Item := ⟨"two", "", "", "", "", []⟩

/-- C7 witness: the disambiguation theorem applied to two concrete items
titled one and two. -/
theorem pathCollisionDisambiguationWitness :
    walkPath (newRootDir [newFeedDir demoMime 0 "u" "F" [demoItem1, demoItem2] "nobody" "nogroup"] 0 "nobody" "nogroup")
        ["F", demoItem2.title, "title"]
      = Except.ok (newStaticFile "title" (0 % 2 ^ 32) 0 (strBytes demoItem2.title) "nobody" "nogroup") :=
  (pathCollisionDisambiguation demoMime 0 "u" "F" "nobody" "nogroup" demoItem1 demoItem2
    (by decide)).2.1

/-- C8.  Version negotiation: the operation succeeds exactly when the
proposed version string starts with the 9P2000 prefix; on failure it
returns the protocol mismatch error, on success the fixed string 9P2000
together with the proposed msize unmodified; the fid map is untouched
either way, so no handle is bound. -/
theorem versionNegotiation (fids : Fids) (v : String) (msize : Nat) :
    exceptIsOk (rssVersion fids v msize).1 = hasPfx v "9P2000"
    ∧ (hasPfx v "9P2000" = true →
        (rssVersion fids v msize).1 = Except.ok ("9P2000", msize))
    ∧ (hasPfx v "9P2000" = false →
        (rssVersion fids v msize).1 = Except.error Err.botch)
    ∧ (rssVersion fids v msize).2 = fids := by
  cases h : hasPfx v "9P2000" <;> simp [rssVersion, h, exceptIsOk]

/-- C8 witness: negotiation applied to a concrete extended version string
with the recognized prefix. -/
theorem versionNegotiationWitness :
    (rssVersion (fun _ => none) "9P2000.u" 8192).1 = Except.ok ("9P2000", 8192) :=
  (versionNegotiation (fun _ => none) "9P2000.u" 8192).2.1 (by decide)

/-- C9.  The interleaving in which both connections evaluate the nil guard
of mediaFile.Open before either stores the buffer performs two remote
fetches, not one: the code has no lock around the guard, so the at most
once promise fails under concurrency.  A fully sequential schedule of the
same two connections performs a single fetch. -/
theorem concurrentDoubleFetch :
    (schedRun ⟨newMediaState, 0, TPos.start, TPos.start⟩
      [false, true, false, true] 3 [7, 8, 9]).fetchCount = 2
    ∧ (schedRun ⟨newMediaState, 0, TPos.start, TPos.start⟩
      [false, false, true, true] 3 [7, 8, 9]).fetchCount = 1 :=
  ⟨rfl, rfl⟩

/-- C10.  Read determinism and independence from history: the reply of a
Read depends only on the materialized content, the offset and the count;
the seek position left behind by any earlier Read through the same reader
is irrelevant, because every Read seeks to the absolute offset first. -/
theorem readDeterministic (content : List Nat) (p1 p2 offset count : Nat) :
    (rssRead ⟨content, p1⟩ offset count).1 = (rssRead ⟨content, p2⟩ offset count).1 := by
  by_cases h : toInt64 offset < 0 <;>
    simp [rssRead, readerSeekStart, readerRead, h]
